import Mathlib

/-!
Verification of the CARDIAC2 firmware core against its specification.

The definitions below are shallow embeddings of the C++ source:

* `Cardiac.HR`      : class `HeartRateCalculator` (heartrate.h and its
  implementation file, the ESP32 firmware variant).
* `Cardiac.Impo`    : the free function `checkForBeat` of `cardiac_impo.ino`.
* `Cardiac.SpO2`    : class `SpO2Calculator` (spo2_Algorithm.cpp).
* `Cardiac.Sensors` : `updateSensors` of the array-based sketches
  (`cardiac_monitor_arduino_uno.ino` and its Mega twin).
* `Cardiac.FW`      : the array-based alert system (`triggerAlert`,
  `removeOldAlerts`, `checkAlerts`).
* `Cardiac.AM`      : class `AlertManager` (alert.h plus `addAlert`).

Machine integers are modelled as `Nat`/`Int` with explicit reductions
modulo 2^32 (resp. 256) exactly where the C code performs unsigned
wrap-around arithmetic or narrowing casts.  C integer division (which
truncates toward zero) is `Int.tdiv`.  The `float` fields of the firmware
carry either small integers or exact halves, so they are modelled by `ℚ`;
every test the code performs on them (comparisons and equality with zero)
is exact in `float` for the values that occur, hence the `ℚ` model decides
those tests identically.
-/

set_option maxRecDepth 40000

namespace Cardiac

/-- Unsigned 32-bit subtraction `a - b` as C computes it on
`unsigned long` operands (wrap-around modulo 2^32). -/
def usub32 (a b : Nat) : Nat :=
  (a % 2 ^ 32 + (2 ^ 32 - b % 2 ^ 32)) % 2 ^ 32

/-- Reinterpretation of a 32-bit pattern as a signed `long`
(twos complement). -/
def toInt32 (n : Nat) : Int :=
  if n % 2 ^ 32 < 2 ^ 31 then (n % 2 ^ 32 : Int) else (n % 2 ^ 32 : Int) - 2 ^ 32

/-- Narrowing cast of a C integer to `byte` (uint8_t): keep the low
eight bits of the twos-complement pattern. -/
def toByte (i : Int) : Nat :=
  (i % 256).toNat

theorem usub32_of_le {a b : Nat} (ha : a < 2 ^ 32) (hle : b ≤ a) :
    usub32 a b = a - b := by
  unfold usub32
  omega

end Cardiac

namespace Cardiac.HR

/-- State of class `HeartRateCalculator` (heartrate.h): the four-entry
BPM ring `rateArray`, its write index `rateSpot`, the previous-beat
timestamp `lastBeat` used for inter-beat deltas, the adaptive
`threshold`, the above-threshold latch `beatDetected`, and the
refractory timestamp `lastBeatTime`. -/
structure State where
  rateArray : List Nat
  rateSpot : Nat
  lastBeat : Nat
  threshold : Int
  beatDetected : Bool
  lastBeatTime : Nat
deriving Repr, DecidableEq

/-- The constructor `HeartRateCalculator()`. -/
def init : State :=
  { rateArray := [0, 0, 0, 0]
    rateSpot := 0
    lastBeat := 0
    threshold := 512
    beatDetected := false
    lastBeatTime := 0 }

/-- `HeartRateCalculator::checkForBeat(long sample)`.  The ambient
`millis()` clock is passed in as `now`.  Returns the boolean result
together with the successor state. -/
def checkForBeat (s : State) (sample : Int) (now : Nat) : Bool × State :=
  if sample > s.threshold ∧ s.beatDetected = false ∧ usub32 now s.lastBeatTime > 300 then
    -- beatDetected = true; lastBeatTime = millis();
    -- long delta = millis() - lastBeat; lastBeat = millis();
    let delta : Int := toInt32 (usub32 now s.lastBeat)
    let s1 : State :=
      { s with beatDetected := true, lastBeatTime := now % 2 ^ 32, lastBeat := now % 2 ^ 32 }
    if 300 < delta ∧ delta < 3000 then
      (true,
        { s1 with
          rateArray := s1.rateArray.set s.rateSpot (toByte (Int.tdiv 60000 delta))
          rateSpot := (s.rateSpot + 1) % 4 })
    else
      (true, s1)
  else if sample < s.threshold - 100 then
    (false,
      { s with
        beatDetected := false
        threshold := Int.tdiv (s.threshold * 31 + sample) 32 })
  else
    (false, { s with threshold := Int.tdiv (s.threshold * 31 + sample) 32 })

/-- `HeartRateCalculator::getBeatsPerMinute()`: fold over the ring
accumulating the total and the count of non-zero entries, then integer
division (0 when no valid reading). -/
def getBeatsPerMinute (s : State) : Nat :=
  let p := s.rateArray.foldl
    (fun acc r => if r ≠ 0 then (acc.1 + r, acc.2 + 1) else acc) ((0 : Nat), (0 : Nat))
  if p.2 = 0 then 0 else p.1 / p.2

/-- `HeartRateCalculator::reset()`: zero the ring, the index, the
previous-beat timestamp `lastBeat` and the latch.  The fields
`threshold` and `lastBeatTime` are not touched by the source. -/
def reset (s : State) : State :=
  { s with
    rateArray := [0, 0, 0, 0]
    rateSpot := 0
    lastBeat := 0
    beatDetected := false }

/-- `HeartRateCalculator::setThreshold(long newThreshold)`. -/
def setThreshold (s : State) (t : Int) : State :=
  { s with threshold := t }

/-- States reachable from the constructor through the public interface. -/
inductive Reachable : State → Prop
  | init : Reachable init
  | step (s : State) (sample : Int) (now : Nat) :
      Reachable s → Reachable (checkForBeat s sample now).2
  | reset (s : State) : Reachable s → Reachable (reset s)
  | setThreshold (s : State) (t : Int) : Reachable s → Reachable (setThreshold s t)

/-- Ring invariant: four slots, each empty (0) or holding a plausible
BPM sample in [20, 199]. -/
def RingOK (s : State) : Prop :=
  s.rateArray.length = 4 ∧ ∀ r ∈ s.rateArray, r = 0 ∨ (20 ≤ r ∧ r ≤ 199)

end Cardiac.HR

namespace Cardiac.Impo

/-- State of the free function `checkForBeat` in `cardiac_impo.ino`
(its four `static` locals). -/
structure State where
  lastSample : Int
  threshold : Int
  beatDetected : Bool
  lastBeatTime : Nat
deriving Repr, DecidableEq

/-- Initial values of the `static` locals. -/
def init : State :=
  { lastSample := 0, threshold := 512, beatDetected := false, lastBeatTime := 0 }

/-- `checkForBeat(long sample)` of `cardiac_impo.ino`.  Note that this
variant assigns `lastBeatTime = millis()` and then computes
`delta = millis() - lastBeatTime`, i.e. the delta is taken against the
timestamp it has just overwritten. -/
def checkForBeat (s : State) (sample : Int) (now : Nat) : Bool × State :=
  if sample > s.threshold ∧ s.beatDetected = false ∧ usub32 now s.lastBeatTime > 300 then
    let s1 : State := { s with beatDetected := true, lastBeatTime := now % 2 ^ 32 }
    let delta : Int := toInt32 (usub32 now s1.lastBeatTime)
    if 300 < delta ∧ delta < 3000 then
      (true, s1)
    else
      (false,
        { s1 with
          threshold := Int.tdiv (s1.threshold * 15 + sample) 16
          lastSample := sample })
  else if sample < s.threshold - 50 then
    (false,
      { s with
        beatDetected := false
        threshold := Int.tdiv (s.threshold * 15 + sample) 16
        lastSample := sample })
  else
    (false,
      { s with
        threshold := Int.tdiv (s.threshold * 15 + sample) 16
        lastSample := sample })

end Cardiac.Impo

namespace Cardiac.SpO2

/-- `BUFFER_SIZE` of class `SpO2Calculator` (spo2_algorithm.h). -/
def bufSize : Nat := 100

/-- State of class `SpO2Calculator`: the paired sample buffers, the
write index and the has-wrapped flag. -/
structure State where
  irBuffer : List Nat
  redBuffer : List Nat
  bufferIndex : Nat
  bufferFull : Bool
deriving Repr, DecidableEq

/-- The scan `if (buf[i] > max) max = buf[i]` starting from 0. -/
def scanMax (l : List Nat) : Nat :=
  l.foldl (fun m x => if x > m then x else m) 0

/-- The scan `if (buf[i] < min) min = buf[i]` starting from 0xFFFFFFFF. -/
def scanMin (l : List Nat) : Nat :=
  l.foldl (fun m x => if x < m then x else m) 4294967295

/-- The infrared DC component as the code computes it:
`(irMax + irMin) / 2.0` where the sum is a wrapping uint32 addition. -/
def irDCval (s : State) : ℚ :=
  (((scanMax s.irBuffer + scanMin s.irBuffer) % 2 ^ 32 : Nat) : ℚ) / 2

/-- The red DC component, same shape as `irDCval`. -/
def redDCval (s : State) : ℚ :=
  (((scanMax s.redBuffer + scanMin s.redBuffer) % 2 ^ 32 : Nat) : ℚ) / 2

/-- The infrared AC component `irMax - irMin` (wrapping uint32
subtraction, as in the source). -/
def irACval (s : State) : ℚ :=
  (usub32 (scanMax s.irBuffer) (scanMin s.irBuffer) : ℚ)

/-- The red AC component. -/
def redACval (s : State) : ℚ :=
  (usub32 (scanMax s.redBuffer) (scanMin s.redBuffer) : ℚ)

/-- The infrared modulation `irAC / irDC` (0 when the denominator is 0;
the code only forms this quotient behind the `irDC == 0` guard). -/
def irModulation (s : State) : ℚ :=
  irACval s / irDCval s

/-- Guarded division: `none` signals that the C code would divide by
zero at this site.  Used so that the theorems also certify the absence
of a zero division on the verified paths. -/
def qdiv (a b : ℚ) : Option ℚ :=
  if b = 0 then none else some (a / b)

/-- `SpO2Calculator::calculateRatio()` (the ratio of ratios).  Mirrors
the source line by line; each division is through `qdiv` so a zero
denominator would surface as `none`. -/
def calculateRatioRR (s : State) : Option ℚ :=
  if s.bufferFull = false then some 0
  else
    let irAC := irACval s
    let irDC := irDCval s
    let redAC := redACval s
    let redDC := redDCval s
    if irDC = 0 ∨ redDC = 0 then some 0
    else
      match qdiv irAC irDC, qdiv redAC redDC with
      | some irMod, some redMod =>
          if irMod = 0 then some 0 else qdiv redMod irMod
      | _, _ => none

/-- `SpO2Calculator::calculateSpO2()`: empirical linear map
`110 - 25 * R` clamped to [70, 100], with sentinel 0 when the buffer
has not wrapped or the ratio is 0. -/
def calculateSpO2 (s : State) : Option ℚ :=
  if s.bufferFull = false then some 0
  else
    match calculateRatioRR s with
    | none => none
    | some r =>
        if r = 0 then some 0
        else
          let spO2 : ℚ := 110 - 25 * r
          some (if spO2 > 100 then 100 else if spO2 < 70 then 70 else spO2)

end Cardiac.SpO2

namespace Cardiac.Sensors

/-- The `VitalSigns` record of the sketches.  `heartRate` and `spO2`
are written from the int32 outputs of the SparkFun algorithm, so they
are modelled as `Int`; `batteryLevel` is the (exact) clamped battery
percentage. -/
structure VitalSigns where
  heartRate : Int
  spO2 : Int
  batteryLevel : ℚ
  isFingerDetected : Bool
  timestamp : Nat
deriving Repr, DecidableEq

/-- Global sensor state mutated by `updateSensors`. -/
structure State where
  vitals : VitalSigns
  bufferIndex : Nat
  irBuffer : List Nat
  redBuffer : List Nat
  fingerDetected : Bool
deriving Repr, DecidableEq

/-- Inputs one invocation of `updateSensors` consumes from its
collaborators: the sensor (availability and the pair of raw readings),
the battery reader, the clock, and the outputs of the external
`maxim_heart_rate_and_oxygen_saturation` routine on the filled buffer
(the routine itself lives in a vendored library outside this
repository, so its results enter as an oracle). -/
structure Input where
  available : Bool
  ir : Nat
  red : Nat
  battery : ℚ
  now : Nat
  spo2 : Int
  validSPO2 : Bool
  heartRate : Int
  validHeartRate : Bool
deriving Repr, DecidableEq

/-- `FINGER_THRESHOLD` (both array-based sketches). -/
def fingerFloor : Nat := 50000

/-- `updateSensors()` of the array-based sketches, parameterized by
`BUFFER_SIZE` (50 in the Uno sketch, 100 in the Mega variant). -/
def updateSensors (bufCap : Nat) (s : State) (inp : Input) : State :=
  let v0 : VitalSigns :=
    { s.vitals with batteryLevel := inp.battery, timestamp := inp.now % 2 ^ 32 }
  if inp.available = false then
    { s with vitals := v0 }
  else
    let ir2 := s.irBuffer.set s.bufferIndex inp.ir
    let red2 := s.redBuffer.set s.bufferIndex inp.red
    let fd := decide (inp.ir > fingerFloor)
    let v1 : VitalSigns := { v0 with isFingerDetected := fd }
    let bi := s.bufferIndex + 1
    if bi ≥ bufCap then
      if fd then
        let v2 : VitalSigns :=
          if inp.validHeartRate = true ∧ inp.heartRate > 0 ∧ inp.heartRate < 200 then
            { v1 with heartRate := inp.heartRate }
          else v1
        let v3 : VitalSigns :=
          if inp.validSPO2 = true ∧ inp.spo2 > 0 ∧ inp.spo2 ≤ 100 then
            { v2 with spO2 := inp.spo2 }
          else v2
        { vitals := v3, bufferIndex := 0, irBuffer := ir2, redBuffer := red2,
          fingerDetected := fd }
      else
        { vitals := { v1 with heartRate := 0, spO2 := 0 }, bufferIndex := 0,
          irBuffer := ir2, redBuffer := red2, fingerDetected := fd }
    else
      { vitals := v1, bufferIndex := bi, irBuffer := ir2, redBuffer := red2,
        fingerDetected := fd }

end Cardiac.Sensors

namespace Cardiac.FW

/-- Alert message payloads.  The sketches render these with `snprintf`
into a `char[64]`; the claims never inspect the text, so the structured
numeric payload stands in for the formatted string. -/
inductive AMsg
  | hr (v : ℚ)
  | spo2 (v : ℚ)
  | battery (v : ℚ)
  | other (n : Nat)
deriving Repr, DecidableEq

/-- The `Alert` struct of the array-based sketches. -/
structure Alert where
  level : Nat
  message : AMsg
  timestamp : Nat
  acknowledged : Bool
deriving Repr, DecidableEq

/-- The alert globals: the `activeAlerts` array with its count (as a
list), the `alertHistory` array with its count, and `lastAlertTime`. -/
structure State where
  activeAlerts : List Alert
  alertHistory : List Alert
  lastAlertTime : Nat
deriving Repr, DecidableEq

/-- `MAX_ALERTS` of the array-based sketches. -/
def maxAlerts : Nat := 5

/-- `MAX_HISTORY` of the array-based sketches. -/
def maxHistory : Nat := 20

/-- `ALERT_COOLDOWN` in milliseconds. -/
def alertCooldown : Nat := 5000

/-- `triggerAlert(int level, const char* message)`: the shared cooldown
gate, the bounded append to `activeAlerts` (silently skipped at
capacity), the bounded append to `alertHistory` with a `memmove`
evicting the oldest entry at capacity, then `lastAlertTime = millis()`. -/
def triggerAlert (s : State) (level : Nat) (message : AMsg) (now : Nat) : State :=
  if usub32 now s.lastAlertTime < alertCooldown then s
  else
    let a : Alert := { level := level, message := message,
                       timestamp := now % 2 ^ 32, acknowledged := false }
    let active2 :=
      if s.activeAlerts.length < maxAlerts then s.activeAlerts ++ [a] else s.activeAlerts
    let history2 :=
      if s.alertHistory.length < maxHistory then s.alertHistory ++ [a]
      else s.alertHistory.tail ++ [a]
    { activeAlerts := active2, alertHistory := history2, lastAlertTime := now % 2 ^ 32 }

/-- `removeOldAlerts()`: compact `activeAlerts`, keeping exactly the
entries that are unacknowledged and at most 30 s old. -/
def removeOldAlerts (s : State) (now : Nat) : State :=
  { s with
    activeAlerts :=
      s.activeAlerts.filter
        (fun a => a.acknowledged = false ∧ usub32 now a.timestamp ≤ 30000) }

/-- The `AlertThresholds` configuration struct. -/
structure Thresholds where
  heartRateMin : ℚ
  heartRateMax : ℚ
  spO2Min : ℚ
  batteryMin : ℚ
  enabled : Bool
deriving Repr, DecidableEq

/-- The `VitalSigns` fields `checkAlerts` reads (float fields exactly
represented in `ℚ`). -/
structure Vitals where
  heartRate : ℚ
  spO2 : ℚ
  batteryLevel : ℚ
  isFingerDetected : Bool
deriving Repr, DecidableEq

/-- `checkAlerts()` of the array-based sketches: early exit when
thresholds are disabled, then the three threshold checks (heart rate
and SpO2 gated on finger presence and a non-zero reading, battery
unconditional), then `removeOldAlerts()`. -/
def checkAlerts (s : State) (vit : Vitals) (thr : Thresholds) (now : Nat) : State :=
  if thr.enabled = false then s
  else
    let s1 :=
      if vit.isFingerDetected = true ∧ vit.heartRate > 0 ∧
          (vit.heartRate < thr.heartRateMin ∨ vit.heartRate > thr.heartRateMax) then
        triggerAlert s
          (if vit.heartRate < 50 ∨ vit.heartRate > 120 then 2 else 1)
          (AMsg.hr vit.heartRate) now
      else s
    let s2 :=
      if vit.isFingerDetected = true ∧ vit.spO2 > 0 ∧ vit.spO2 < thr.spO2Min then
        triggerAlert s1 (if vit.spO2 < 90 then 2 else 1) (AMsg.spo2 vit.spO2) now
      else s1
    let s3 :=
      if vit.batteryLevel < thr.batteryMin then
        triggerAlert s2 (if vit.batteryLevel < 10 then 2 else 1)
          (AMsg.battery vit.batteryLevel) now
      else s2
    removeOldAlerts s3 now

end Cardiac.FW

namespace Cardiac.AM

/-- The `Alert` struct of alert.h: an `AlertType` (as its enum index),
the message (abstracted to an identifier; the claims never read it),
the creation timestamp and the acknowledged flag. -/
structure Alert where
  type : Nat
  message : Nat
  timestamp : Nat
  acknowledged : Bool
deriving Repr, DecidableEq

/-- State of class `AlertManager`: the live prefix of the `alerts`
array (`alertCount` entries, in insertion order) plus the buzzer
bookkeeping. -/
structure State where
  alerts : List Alert
  lastBuzzerTime : Nat
  buzzerEnabled : Bool
deriving Repr, DecidableEq

/-- `MAX_ALERTS` of class `AlertManager` (alert.h). -/
def maxAlerts : Nat := 10

/-- `AlertManager::addAlert(AlertType type, String message)`.  Returns
the successor state together with the tone played (`some type` when the
buzzer fires, `none` otherwise).  The scan over existing alerts returns
early on any entry of the same type younger than 30 s, acknowledged or
not. -/
def addAlert (s : State) (ty : Nat) (msg : Nat) (now : Nat) : State × Option Nat :=
  if ∃ a ∈ s.alerts, a.type = ty ∧ usub32 now a.timestamp < 30000 then
    (s, none)
  else
    let alerts1 := if s.alerts.length ≥ maxAlerts then s.alerts.tail else s.alerts
    let a : Alert := { type := ty, message := msg, timestamp := now % 2 ^ 32,
                       acknowledged := false }
    ({ s with alerts := alerts1 ++ [a] },
      if s.buzzerEnabled then some ty else none)

end Cardiac.AM

namespace Cardiac

/-- Concrete sensor state for claim C1: mid-buffer (index 0 of 50),
previous snapshot holding valid readings. -/
def Sensors.stateC1 : Sensors.State :=
  { vitals := { heartRate := 80, spO2 := 97, batteryLevel := 50,
                isFingerDetected := true, timestamp := 0 }
    bufferIndex := 0
    irBuffer := List.replicate 50 0
    redBuffer := List.replicate 50 0
    fingerDetected := true }

/-- Concrete tick input for claim C1: sensor data available, infrared
reading 100 (far below the 50000 finger floor). -/
def Sensors.inputC1 : Sensors.Input :=
  { available := true, ir := 100, red := 0, battery := 50, now := 123,
    spo2 := 0, validSPO2 := false, heartRate := 0, validHeartRate := false }

/-- A stale active alert used to fill collections in concrete states. -/
def FW.filler : FW.Alert :=
  { level := 1, message := FW.AMsg.other 0, timestamp := 0, acknowledged := false }

/-- Concrete alert state for claim C2: Active Alerts at capacity
(5 entries), history empty, cooldown long expired. -/
def FW.stateC2 : FW.State :=
  { activeAlerts := List.replicate 5 FW.filler
    alertHistory := []
    lastAlertTime := 0 }

/-- Concrete alert state for the C2 witness: both collections at
capacity. -/
def FW.stateC2w : FW.State :=
  { activeAlerts := List.replicate 5 FW.filler
    alertHistory := List.replicate 20 FW.filler
    lastAlertTime := 0 }

/-- Empty alert state (the boot state of the alert globals). -/
def FW.stateEmpty : FW.State :=
  { activeAlerts := [], alertHistory := [], lastAlertTime := 0 }

/-- Concrete alert state for claim C6: one acknowledged active alert. -/
def FW.stateC6 : FW.State :=
  { activeAlerts := [{ level := 1, message := FW.AMsg.other 1, timestamp := 0,
                       acknowledged := true }]
    alertHistory := []
    lastAlertTime := 0 }

/-- Thresholds with the global enable flag cleared (claim C6). -/
def FW.thrDisabled : FW.Thresholds :=
  { heartRateMin := 60, heartRateMax := 100, spO2Min := 95, batteryMin := 20,
    enabled := false }

/-- Thresholds with the global enable flag set (claim C6 witness). -/
def FW.thrEnabled : FW.Thresholds :=
  { heartRateMin := 60, heartRateMax := 100, spO2Min := 95, batteryMin := 20,
    enabled := true }

/-- Nominal vitals: no finger, battery healthy (claim C6). -/
def FW.vitIdle : FW.Vitals :=
  { heartRate := 0, spO2 := 0, batteryLevel := 50, isFingerDetected := false }

/-- Vitals with a low battery (8 %), used to provoke a battery alert. -/
def FW.vitLowBat : FW.Vitals :=
  { heartRate := 0, spO2 := 0, batteryLevel := 8, isFingerDetected := false }

/-- Detector state for claim C9: populated ring, latched, both
timestamps and a drifted threshold set. -/
def HR.stateC9 : HR.State :=
  { rateArray := [100, 0, 0, 0], rateSpot := 1, lastBeat := 2000,
    threshold := 700, beatDetected := true, lastBeatTime := 1000 }

/-- SpO2 state for the C7 witness: buffer never wrapped. -/
def SpO2.stateNotFull : SpO2.State :=
  { irBuffer := List.replicate 100 7, redBuffer := List.replicate 100 7,
    bufferIndex := 3, bufferFull := false }

/-- SpO2 state for the C7 witness: wrapped buffer of all-zero samples,
so both DC components are zero. -/
def SpO2.stateZero : SpO2.State :=
  { irBuffer := List.replicate 100 0, redBuffer := List.replicate 100 0,
    bufferIndex := 0, bufferFull := true }

/-- AlertManager alert for claim C10: type 3, recent, ACKNOWLEDGED. -/
def AM.alertC10 : AM.Alert :=
  { type := 3, message := 1, timestamp := 1000, acknowledged := true }

/-- AlertManager state for claim C10: holds only `alertC10`. -/
def AM.stateC10 : AM.State :=
  { alerts := [AM.alertC10], lastBuzzerTime := 0, buzzerEnabled := true }

end Cardiac

namespace Cardiac

/-- Helper: one `triggerAlert` call grows Active Alerts by at most one
entry. -/
theorem FW.triggerAlert_activeLen_le (s : FW.State) (lvl : Nat) (m : FW.AMsg) (now : Nat) :
    (FW.triggerAlert s lvl m now).activeAlerts.length ≤ s.activeAlerts.length + 1 := by
  unfold FW.triggerAlert
  split
  · exact Nat.le_succ _
  · simp only
    split <;> simp

/-- Helper: the cooldown gate makes a suppressed `triggerAlert` call a
no-op. -/
theorem FW.triggerAlert_gate (s : FW.State) (lvl : Nat) (m : FW.AMsg) (now : Nat)
    (h : usub32 now s.lastAlertTime < FW.alertCooldown) :
    FW.triggerAlert s lvl m now = s := by
  unfold FW.triggerAlert
  exact if_pos h

/-- Helper: a `triggerAlert` call that passes the gate records `now` as
the shared last-alert time. -/
theorem FW.triggerAlert_stamps (s : FW.State) (lvl : Nat) (m : FW.AMsg) (now : Nat)
    (h : ¬ usub32 now s.lastAlertTime < FW.alertCooldown) :
    (FW.triggerAlert s lvl m now).lastAlertTime = now % 2 ^ 32 := by
  unfold FW.triggerAlert
  rw [if_neg h]

end Cardiac

namespace Cardiac

/-- Claim C1, counterexample: a tick with sensor data available and
infrared 100 (finger absent) at buffer index 0 of 50 produces a
snapshot flagged finger-absent that still carries the previous
heart rate 80 and SpO2 97 — not the zeros the claim requires. -/
theorem c1_counterexample :
    (Sensors.updateSensors 50 Sensors.stateC1 Sensors.inputC1).vitals.isFingerDetected = false
    ∧ (Sensors.updateSensors 50 Sensors.stateC1 Sensors.inputC1).vitals.heartRate = 80
    ∧ (Sensors.updateSensors 50 Sensors.stateC1 Sensors.inputC1).vitals.spO2 = 97 := by
  decide

/-- Claim C1 as amended: on a finger-absent tick with data available,
the snapshot is flagged finger-absent, and heart rate and SpO2 are
forced to 0 exactly when that tick wraps the sample buffer; on
non-wrap ticks the previous values are carried forward unchanged. -/
theorem c1_zeroing_only_on_wrap (bufCap : Nat) (s : Sensors.State) (inp : Sensors.Input)
    (hav : inp.available = true) (hfd : ¬ inp.ir > Sensors.fingerFloor) :
    (Sensors.updateSensors bufCap s inp).vitals.isFingerDetected = false
    ∧ (s.bufferIndex + 1 ≥ bufCap →
        (Sensors.updateSensors bufCap s inp).vitals.heartRate = 0
        ∧ (Sensors.updateSensors bufCap s inp).vitals.spO2 = 0)
    ∧ (s.bufferIndex + 1 < bufCap →
        (Sensors.updateSensors bufCap s inp).vitals.heartRate = s.vitals.heartRate
        ∧ (Sensors.updateSensors bufCap s inp).vitals.spO2 = s.vitals.spO2) := by
  have hfd2 : decide (inp.ir > Sensors.fingerFloor) = false := decide_eq_false hfd
  by_cases hb : s.bufferIndex + 1 ≥ bufCap
  · refine ⟨?_, fun _ => ⟨?_, ?_⟩, fun hlt => absurd hb (by omega)⟩ <;>
      simp [Sensors.updateSensors, hav, hfd2, hb]
  · refine ⟨?_, fun hge => absurd hge hb, fun _ => ⟨?_, ?_⟩⟩ <;>
      simp [Sensors.updateSensors, hav, hfd2, hb]

/-- Claim C1 witness: on the wrap tick (index 49 of 50) the same
finger-absent input does zero both readings. -/
theorem c1_witness :
    (Sensors.updateSensors 50 { Sensors.stateC1 with bufferIndex := 49 }
        Sensors.inputC1).vitals.heartRate = 0
    ∧ (Sensors.updateSensors 50 { Sensors.stateC1 with bufferIndex := 49 }
        Sensors.inputC1).vitals.spO2 = 0 :=
  (c1_zeroing_only_on_wrap 50 { Sensors.stateC1 with bufferIndex := 49 } Sensors.inputC1
    (by decide) (by decide)).2.1 (by decide)

/-- Claim C2, counterexample: with Active Alerts at capacity (5) and
the cooldown expired, triggering a new alert leaves Active Alerts
unchanged — the new alert (timestamp 6000) is appended to history but
is NOT retained in Active Alerts, and nothing is evicted. -/
theorem c2_counterexample :
    (FW.triggerAlert FW.stateC2 2 (FW.AMsg.hr 130) 6000).activeAlerts
      = FW.stateC2.activeAlerts
    ∧ (∀ a ∈ (FW.triggerAlert FW.stateC2 2 (FW.AMsg.hr 130) 6000).activeAlerts,
        a.timestamp ≠ 6000)
    ∧ (∃ a ∈ (FW.triggerAlert FW.stateC2 2 (FW.AMsg.hr 130) 6000).alertHistory,
        a.timestamp = 6000) := by
  decide

/-- Claim C2 as amended: in the array-based sketches both collections
are capacity-bounded (5 active, 20 history) in the sense that one
trigger step preserves the bounds; at capacity the history evicts its
oldest entry and retains the new alert, but a new alert arriving with
Active Alerts at capacity is dropped from Active Alerts, not retained. -/
theorem c2_bounds_and_history_eviction (s : FW.State) (lvl : Nat) (m : FW.AMsg) (now : Nat) :
    (s.activeAlerts.length ≤ FW.maxAlerts →
      (FW.triggerAlert s lvl m now).activeAlerts.length ≤ FW.maxAlerts)
    ∧ (s.alertHistory.length ≤ FW.maxHistory →
      (FW.triggerAlert s lvl m now).alertHistory.length ≤ FW.maxHistory)
    ∧ (¬ usub32 now s.lastAlertTime < FW.alertCooldown →
        s.alertHistory.length = FW.maxHistory →
        (FW.triggerAlert s lvl m now).alertHistory
          = s.alertHistory.tail ++
              [{ level := lvl, message := m, timestamp := now % 2 ^ 32,
                 acknowledged := false }])
    ∧ (¬ usub32 now s.lastAlertTime < FW.alertCooldown →
        s.activeAlerts.length = FW.maxAlerts →
        (FW.triggerAlert s lvl m now).activeAlerts = s.activeAlerts) := by
  by_cases hg : usub32 now s.lastAlertTime < FW.alertCooldown
  · rw [FW.triggerAlert_gate s lvl m now hg]
    exact ⟨fun h => h, fun h => h, fun hn _ => absurd hg hn, fun hn _ => absurd hg hn⟩
  · refine ⟨?_, ?_, ?_, ?_⟩
    · intro h
      unfold FW.triggerAlert
      rw [if_neg hg]
      by_cases ha : s.activeAlerts.length < FW.maxAlerts
      · simp only [ha, if_true, List.length_append, List.length_singleton]
        simp only [FW.maxAlerts] at ha ⊢
        omega
      · simpa [ha] using h
    · intro h
      unfold FW.triggerAlert
      rw [if_neg hg]
      by_cases hh : s.alertHistory.length < FW.maxHistory
      · simp only [hh, if_true, List.length_append, List.length_singleton]
        simp only [FW.maxHistory] at hh ⊢
        omega
      · simp only [hh, if_false, List.length_append, List.length_singleton]
        rw [List.length_tail]
        simp only [FW.maxHistory] at h hh ⊢
        omega
    · intro _ hlen
      unfold FW.triggerAlert
      rw [if_neg hg]
      simp [show ¬ s.alertHistory.length < FW.maxHistory by omega]
    · intro _ hlen
      unfold FW.triggerAlert
      rw [if_neg hg]
      simp [show ¬ s.activeAlerts.length < FW.maxAlerts by omega]

/-- Claim C2 witness: with both collections at capacity and the
cooldown expired, the bounds hold after the trigger and the history is
the tail of the old history followed by the new alert. -/
theorem c2_witness :
    (FW.triggerAlert FW.stateC2w 2 (FW.AMsg.hr 130) 6000).activeAlerts.length ≤ FW.maxAlerts
    ∧ (FW.triggerAlert FW.stateC2w 2 (FW.AMsg.hr 130) 6000).alertHistory
        = FW.stateC2w.alertHistory.tail ++
            [{ level := 2, message := FW.AMsg.hr 130, timestamp := 6000 % 2 ^ 32,
               acknowledged := false }] :=
  ⟨(c2_bounds_and_history_eviction FW.stateC2w 2 (FW.AMsg.hr 130) 6000).1 (by decide),
   (c2_bounds_and_history_eviction FW.stateC2w 2 (FW.AMsg.hr 130) 6000).2.2.1
     (by decide) (by decide)⟩

end Cardiac

namespace Cardiac

/-- Claim C3: the cooldown is a single shared gate.  (a) A trigger
request arriving within 5 s of the last recorded alert time is a
complete no-op, whatever its type; (b) a request that passes the gate
stamps the shared last-alert time; (c) consequently two trigger
requests less than 5 s apart append at most one alert to Active Alerts
in total. -/
theorem c3_shared_cooldown :
    (∀ (s : FW.State) (lvl : Nat) (m : FW.AMsg) (now : Nat),
        usub32 now s.lastAlertTime < FW.alertCooldown →
        FW.triggerAlert s lvl m now = s)
    ∧ (∀ (s : FW.State) (lvl : Nat) (m : FW.AMsg) (now : Nat),
        ¬ usub32 now s.lastAlertTime < FW.alertCooldown →
        (FW.triggerAlert s lvl m now).lastAlertTime = now % 2 ^ 32)
    ∧ (∀ (s : FW.State) (l1 : Nat) (m1 : FW.AMsg) (t1 : Nat)
          (l2 : Nat) (m2 : FW.AMsg) (t2 : Nat),
        t1 ≤ t2 → t2 < t1 + FW.alertCooldown → t2 < 2 ^ 32 →
        (FW.triggerAlert (FW.triggerAlert s l1 m1 t1) l2 m2 t2).activeAlerts.length
          ≤ s.activeAlerts.length + 1) := by
  refine ⟨FW.triggerAlert_gate, FW.triggerAlert_stamps, ?_⟩
  intro s l1 m1 t1 l2 m2 t2 h12 hlt h32
  by_cases hg1 : usub32 t1 s.lastAlertTime < FW.alertCooldown
  · rw [FW.triggerAlert_gate s l1 m1 t1 hg1]
    exact FW.triggerAlert_activeLen_le s l2 m2 t2
  · have hstamp := FW.triggerAlert_stamps s l1 m1 t1 hg1
    have ht1 : t1 < 2 ^ 32 := lt_of_le_of_lt h12 h32
    have hg2 : usub32 t2 (FW.triggerAlert s l1 m1 t1).lastAlertTime < FW.alertCooldown := by
      rw [hstamp, Nat.mod_eq_of_lt ht1, usub32_of_le h32 h12]
      simp only [FW.alertCooldown] at hlt ⊢
      omega
    rw [FW.triggerAlert_gate _ l2 m2 t2 hg2]
    exact FW.triggerAlert_activeLen_le s l1 m1 t1

/-- Claim C3 witness: from the empty boot state, a heart-rate breach
at t = 6000 ms followed by a battery breach at t = 9000 ms (3 s later)
appends at most one alert in total. -/
theorem c3_witness :
    (FW.triggerAlert (FW.triggerAlert FW.stateEmpty 2 (FW.AMsg.hr 130) 6000)
        1 (FW.AMsg.battery 5) 9000).activeAlerts.length
      ≤ FW.stateEmpty.activeAlerts.length + 1 :=
  c3_shared_cooldown.2.2 FW.stateEmpty 2 (FW.AMsg.hr 130) 6000 1 (FW.AMsg.battery 5) 9000
    (by decide) (by decide) (by decide)

/-- Claim C4 (code bug in `cardiac_impo.ino`): at a state where every
beat-registration condition holds (sample 600 above threshold 512,
latch clear, refractory long expired), the sketch computes its delta
against the just-overwritten timestamp, so `checkForBeat` registers the
beat internally (latch set) yet reports `false` and records no BPM —
while `HeartRateCalculator::checkForBeat` in the same situation (prior
beat 500 ms earlier) reports `true` and pushes `60000 / 500 = 120` into
the BPM ring as the claim describes. -/
theorem c4_impo_never_reports_beat :
    ((600 : Int) > Impo.init.threshold ∧ Impo.init.beatDetected = false
      ∧ usub32 10000 Impo.init.lastBeatTime > 300)
    ∧ (Impo.checkForBeat Impo.init 600 10000).1 = false
    ∧ (Impo.checkForBeat Impo.init 600 10000).2.beatDetected = true
    ∧ (HR.checkForBeat
        { HR.init with lastBeat := 9500, lastBeatTime := 9500 } 600 10000).1 = true
    ∧ (HR.checkForBeat
        { HR.init with lastBeat := 9500, lastBeatTime := 9500 } 600 10000).2.rateArray
        = [120, 0, 0, 0] := by
  decide

/-- Claim C5, counterexample: on a beat-registering sample (600 over
threshold 512 at the constructor state, 10 s after boot) the early
return skips the smoothing update: the threshold stays 512, while the
claimed rule `(512 * 31 + 600) / 32` yields 514. -/
theorem c5_counterexample :
    (HR.checkForBeat HR.init 600 10000).1 = true
    ∧ (HR.checkForBeat HR.init 600 10000).2.threshold = 512
    ∧ Int.tdiv (512 * 31 + 600) 32 = 514 := by
  decide

/-- Claim C5 as amended: `HeartRateCalculator::checkForBeat` applies
the smoothing rule `threshold := (threshold * 31 + sample) / 32` on
exactly the samples on which no beat is registered (the call returns
false); on a beat-registering sample (the call returns true) the update
is skipped and the threshold is unchanged. -/
theorem c5_threshold_update_skipped_on_beat (s : HR.State) (sample : Int) (now : Nat) :
    ((HR.checkForBeat s sample now).1 = true →
      (HR.checkForBeat s sample now).2.threshold = s.threshold)
    ∧ ((HR.checkForBeat s sample now).1 = false →
      (HR.checkForBeat s sample now).2.threshold
        = Int.tdiv (s.threshold * 31 + sample) 32) := by
  simp only [HR.checkForBeat]
  split
  · split <;> exact ⟨fun _ => rfl, fun h => by simp at h⟩
  · split <;> exact ⟨fun h => by simp at h, fun _ => rfl⟩

/-- Claim C5 witness: the amended rule evaluated on both kinds of
sample — the beat sample of the counterexample state keeps threshold
512, and a quiet sample 400 at the constructor state moves it to
`(512 * 31 + 400) / 32 = 508`. -/
theorem c5_witness :
    (HR.checkForBeat HR.init 600 10000).2.threshold = HR.init.threshold
    ∧ (HR.checkForBeat HR.init 400 10000).2.threshold
        = Int.tdiv (HR.init.threshold * 31 + 400) 32 :=
  ⟨(c5_threshold_update_skipped_on_beat HR.init 600 10000).1 (by decide),
   (c5_threshold_update_skipped_on_beat HR.init 400 10000).2 (by decide)⟩

/-- Claim C6, counterexample: with thresholds globally disabled,
`checkAlerts` returns before reaching `removeOldAlerts`, so an already
acknowledged active alert survives the evaluation cycle — the claim
requires it to be purged. -/
theorem c6_counterexample :
    (FW.checkAlerts FW.stateC6 FW.vitIdle FW.thrDisabled 40000).activeAlerts
      = FW.stateC6.activeAlerts
    ∧ ∃ a ∈ (FW.checkAlerts FW.stateC6 FW.vitIdle FW.thrDisabled 40000).activeAlerts,
        a.acknowledged = true := by
  decide

/-- Claim C6 as amended: when thresholds are globally disabled,
`checkAlerts` is a complete no-op — neither the threshold checks nor
the purge run; when enabled, the purge does run at the end of the
cycle, so every surviving active alert is unacknowledged and at most
30 s old. -/
theorem c6_purge_only_when_enabled :
    (∀ (s : FW.State) (vit : FW.Vitals) (thr : FW.Thresholds) (now : Nat),
        thr.enabled = false → FW.checkAlerts s vit thr now = s)
    ∧ (∀ (s : FW.State) (vit : FW.Vitals) (thr : FW.Thresholds) (now : Nat),
        thr.enabled = true →
        ∀ a ∈ (FW.checkAlerts s vit thr now).activeAlerts,
          a.acknowledged = false ∧ usub32 now a.timestamp ≤ 30000) := by
  constructor
  · intro s vit thr now hd
    unfold FW.checkAlerts
    exact if_pos hd
  · intro s vit thr now he a ha
    unfold FW.checkAlerts at ha
    rw [if_neg (by simp [he])] at ha
    simp only [FW.removeOldAlerts, List.mem_filter, decide_eq_true_eq] at ha
    exact ha.2

/-- Claim C6 witness: with thresholds enabled and battery at 8 %, the
alert produced by the cycle at t = 31000 ms is unacknowledged and
fresh; and the disabled no-op instantiated at the C6 state. -/
theorem c6_witness :
    (FW.checkAlerts FW.stateC6 FW.vitIdle FW.thrDisabled 40000 = FW.stateC6)
    ∧ ({ level := 2, message := FW.AMsg.battery 8, timestamp := 31000,
         acknowledged := false } : FW.Alert).acknowledged = false
    ∧ usub32 31000
        ({ level := 2, message := FW.AMsg.battery 8, timestamp := 31000,
           acknowledged := false } : FW.Alert).timestamp ≤ 30000 :=
  ⟨c6_purge_only_when_enabled.1 FW.stateC6 FW.vitIdle FW.thrDisabled 40000 (by decide),
   (c6_purge_only_when_enabled.2 FW.stateEmpty FW.vitLowBat FW.thrEnabled 31000 (by decide)
      { level := 2, message := FW.AMsg.battery 8, timestamp := 31000,
        acknowledged := false } (by decide)).1,
   (c6_purge_only_when_enabled.2 FW.stateEmpty FW.vitLowBat FW.thrEnabled 31000 (by decide)
      { level := 2, message := FW.AMsg.battery 8, timestamp := 31000,
        acknowledged := false } (by decide)).2⟩

end Cardiac

namespace Cardiac

/-- Claim C7: `calculateSpO2` returns the sentinel 0 (wrapped in
`some`, certifying that no division by zero is executed on the way)
whenever the buffer has not wrapped, or either DC component is zero,
or the infrared modulation ratio is zero. -/
theorem c7_spo2_sentinel (s : SpO2.State) :
    (s.bufferFull = false → SpO2.calculateSpO2 s = some 0)
    ∧ (SpO2.irDCval s = 0 ∨ SpO2.redDCval s = 0 → SpO2.calculateSpO2 s = some 0)
    ∧ (SpO2.irModulation s = 0 → SpO2.calculateSpO2 s = some 0) := by
  have hnotfull : s.bufferFull = false → SpO2.calculateSpO2 s = some 0 := by
    intro h
    unfold SpO2.calculateSpO2
    rw [if_pos h]
  have hdc : SpO2.irDCval s = 0 ∨ SpO2.redDCval s = 0 → SpO2.calculateSpO2 s = some 0 := by
    intro h
    cases hb : s.bufferFull
    · exact hnotfull hb
    · have hr : SpO2.calculateRatioRR s = some 0 := by
        simp only [SpO2.calculateRatioRR]
        rw [if_neg (by simp [hb]), if_pos h]
      unfold SpO2.calculateSpO2
      rw [if_neg (by simp [hb]), hr]
      simp
  refine ⟨hnotfull, hdc, ?_⟩
  intro h
  cases hb : s.bufferFull
  · exact hnotfull hb
  · by_cases hdc0 : SpO2.irDCval s = 0 ∨ SpO2.redDCval s = 0
    · exact hdc hdc0
    · push_neg at hdc0
      have hr : SpO2.calculateRatioRR s = some 0 := by
        simp only [SpO2.calculateRatioRR]
        rw [if_neg (by simp [hb]), if_neg (by push_neg; exact hdc0)]
        simp only [SpO2.qdiv, if_neg hdc0.1, if_neg hdc0.2]
        rw [if_pos (show SpO2.irACval s / SpO2.irDCval s = 0 from h)]
      unfold SpO2.calculateSpO2
      rw [if_neg (by simp [hb]), hr]
      simp

/-- Claim C7 witness: a never-wrapped buffer of constant samples gives
the sentinel, and a wrapped all-zero buffer (both DC components zero)
gives the sentinel. -/
theorem c7_witness :
    SpO2.calculateSpO2 SpO2.stateNotFull = some 0
    ∧ SpO2.calculateSpO2 SpO2.stateZero = some 0 :=
  ⟨(c7_spo2_sentinel SpO2.stateNotFull).1 rfl,
   (c7_spo2_sentinel SpO2.stateZero).2.1 (Or.inl (by
      have h1 : SpO2.scanMax SpO2.stateZero.irBuffer = 0 := rfl
      have h2 : SpO2.scanMin SpO2.stateZero.irBuffer = 0 := rfl
      simp [SpO2.irDCval, h1, h2]))⟩

/-- Helper: the accumulator fold of `getBeatsPerMinute` computes the
sum and the count of the non-zero ring entries. -/
theorem HR.foldl_sumCount (l : List Nat) (a b : Nat) :
    l.foldl (fun acc r => if r ≠ 0 then (acc.1 + r, acc.2 + 1) else acc) (a, b)
      = (a + (l.filter (· ≠ 0)).sum, b + (l.filter (· ≠ 0)).length) := by
  induction l generalizing a b with
  | nil => simp
  | cons x xs ih =>
    simp only [List.foldl_cons, List.filter_cons]
    by_cases hx : x = 0
    · rw [if_neg (by simp [hx]), if_neg (by simp [hx])]
      exact ih a b
    · rw [if_pos (by simp [hx]), if_pos (by simp [hx]), ih]
      simp only [List.sum_cons, List.length_cons, Prod.mk.injEq]
      constructor <;> omega

/-- Helper: a BPM value pushed into the ring under the
`300 < delta < 3000` guard lies in [20, 199] after the byte cast. -/
theorem HR.pushValue_bound {d : Int} (h1 : 300 < d) (h2 : d < 3000) :
    20 ≤ toByte (Int.tdiv 60000 d) ∧ toByte (Int.tdiv 60000 d) ≤ 199 := by
  have hd0 : (0 : Int) ≤ d := by omega
  obtain ⟨n, rfl⟩ : ∃ n : Nat, d = (n : Int) := ⟨d.toNat, (Int.toNat_of_nonneg hd0).symm⟩
  have hn1 : 300 < n := by exact_mod_cast h1
  have hn2 : n < 3000 := by exact_mod_cast h2
  have htdiv : Int.tdiv 60000 (n : Int) = ((60000 / n : Nat) : Int) := by
    exact_mod_cast (Int.ofNat_tdiv 60000 n).symm
  have hub : 60000 / n ≤ 199 := by
    calc 60000 / n ≤ 60000 / 301 := Nat.div_le_div_left (by omega) (by omega)
    _ = 199 := by norm_num
  have hlb : 20 ≤ 60000 / n := (Nat.le_div_iff_mul_le (by omega)).2 (by omega)
  unfold toByte
  rw [htdiv, Int.emod_eq_of_lt (Int.natCast_nonneg _)
    (by exact_mod_cast (by omega : 60000 / n < 256))]
  rw [Int.toNat_natCast]
  exact ⟨hlb, hub⟩

/-- Helper: every reachable detector state satisfies the ring
invariant. -/
theorem HR.ringOK_of_reachable {s : HR.State} (h : HR.Reachable s) : HR.RingOK s := by
  induction h with
  | init =>
    refine ⟨rfl, ?_⟩
    intro r hr
    simp only [HR.init] at hr
    simp only [List.mem_cons, List.not_mem_nil, or_false] at hr
    rcases hr with h | h | h | h <;> exact Or.inl h
  | reset s _ _ =>
    refine ⟨rfl, ?_⟩
    intro r hr
    simp only [HR.reset] at hr
    simp only [List.mem_cons, List.not_mem_nil, or_false] at hr
    rcases hr with h | h | h | h <;> exact Or.inl h
  | setThreshold s t _ ih => exact ih
  | step s sample now _ ih =>
    obtain ⟨hlen, hmem⟩ := ih
    simp only [HR.checkForBeat]
    split
    · split
      · refine ⟨by simpa using hlen, ?_⟩
        intro r hr
        rcases List.mem_or_eq_of_mem_set hr with hold | hnew
        · exact hmem r hold
        · subst hnew
          rename_i hcond
          exact Or.inr (HR.pushValue_bound hcond.1 hcond.2)
      · exact ⟨hlen, hmem⟩
    · split
      · exact ⟨hlen, hmem⟩
      · exact ⟨hlen, hmem⟩

/-- Claim C8: for every reachable detector state,
`getBeatsPerMinute()` is the (integer) arithmetic mean of the non-zero
ring entries — 0 when there are none — and the returned value never
lies outside the set {0} together with [20, 200]. -/
theorem c8_bpm_mean_and_range (s : HR.State) (h : HR.Reachable s) :
    HR.getBeatsPerMinute s =
      (if (s.rateArray.filter (· ≠ 0)).length = 0 then 0
       else (s.rateArray.filter (· ≠ 0)).sum / (s.rateArray.filter (· ≠ 0)).length)
    ∧ (HR.getBeatsPerMinute s = 0
        ∨ (20 ≤ HR.getBeatsPerMinute s ∧ HR.getBeatsPerMinute s ≤ 200)) := by
  have hmean : HR.getBeatsPerMinute s =
      (if (s.rateArray.filter (· ≠ 0)).length = 0 then 0
       else (s.rateArray.filter (· ≠ 0)).sum / (s.rateArray.filter (· ≠ 0)).length) := by
    unfold HR.getBeatsPerMinute
    rw [HR.foldl_sumCount]
    simp
  refine ⟨hmean, ?_⟩
  obtain ⟨hlen4, hmem⟩ := HR.ringOK_of_reachable h
  rw [hmean]
  by_cases h0 : (s.rateArray.filter (· ≠ 0)).length = 0
  · left
    rw [if_pos h0]
  · right
    rw [if_neg h0]
    have hml : ∀ x ∈ s.rateArray.filter (· ≠ 0), 20 ≤ x ∧ x ≤ 199 := by
      intro x hx
      have hx2 := List.mem_filter.1 hx
      have hne : x ≠ 0 := by simpa using hx2.2
      rcases hmem x hx2.1 with hz | hz
      · exact absurd hz hne
      · exact hz
    have hub : (s.rateArray.filter (· ≠ 0)).sum
        ≤ (s.rateArray.filter (· ≠ 0)).length * 199 := by
      have := List.sum_le_card_nsmul (s.rateArray.filter (· ≠ 0)) 199
        (fun x hx => (hml x hx).2)
      simpa [smul_eq_mul] using this
    have hlb : (s.rateArray.filter (· ≠ 0)).length * 20
        ≤ (s.rateArray.filter (· ≠ 0)).sum := by
      have := List.card_nsmul_le_sum (s.rateArray.filter (· ≠ 0)) 20
        (fun x hx => (hml x hx).1)
      simpa [smul_eq_mul] using this
    have hpos : 0 < (s.rateArray.filter (· ≠ 0)).length := Nat.pos_of_ne_zero h0
    constructor
    · exact (Nat.le_div_iff_mul_le hpos).2 (by omega)
    · have hstep : (s.rateArray.filter (· ≠ 0)).sum / (s.rateArray.filter (· ≠ 0)).length
          ≤ ((s.rateArray.filter (· ≠ 0)).length * 199) / (s.rateArray.filter (· ≠ 0)).length :=
        Nat.div_le_div_right hub
      rw [Nat.mul_div_cancel_left _ hpos] at hstep
      omega

/-- Claim C8 witness: the state after one valid beat (registered 400 ms
after boot, pushing 60000 / 400 = 150) is reachable, and its BPM
reading satisfies the range property. -/
theorem c8_witness :
    HR.getBeatsPerMinute (HR.checkForBeat HR.init 600 400).2 = 0
    ∨ (20 ≤ HR.getBeatsPerMinute (HR.checkForBeat HR.init 600 400).2
        ∧ HR.getBeatsPerMinute (HR.checkForBeat HR.init 600 400).2 ≤ 200) :=
  (c8_bpm_mean_and_range (HR.checkForBeat HR.init 600 400).2
    (HR.Reachable.step HR.init 600 400 HR.Reachable.init)).2

/-- Claim C9, counterexample: `reset()` does NOT clear the refractory
timestamp `lastBeatTime`.  After resetting a state whose last beat was
registered at t = 1000 ms, `lastBeatTime` still reads 1000, and a
clean above-threshold sample at t = 1200 ms is rejected by the
refractory check — whereas with the timestamp cleared (as the claim
asserts) the same sample registers a beat. -/
theorem c9_counterexample :
    (HR.reset HR.stateC9).lastBeatTime = 1000
    ∧ (HR.checkForBeat (HR.reset HR.stateC9) 800 1200).1 = false
    ∧ (HR.checkForBeat { HR.reset HR.stateC9 with lastBeatTime := 0 } 800 1200).1 = true := by
  decide

/-- Claim C9 as amended: `reset()` clears the BPM ring, the ring
index, the latch and the inter-beat delta timestamp `lastBeat`, and
leaves both the adaptive threshold AND the refractory timestamp
`lastBeatTime` unchanged; the cleared ring makes the next
`getBeatsPerMinute()` read 0. -/
theorem c9_reset_frame (s : HR.State) :
    (HR.reset s).rateArray = [0, 0, 0, 0]
    ∧ (HR.reset s).rateSpot = 0
    ∧ (HR.reset s).lastBeat = 0
    ∧ (HR.reset s).beatDetected = false
    ∧ (HR.reset s).threshold = s.threshold
    ∧ (HR.reset s).lastBeatTime = s.lastBeatTime
    ∧ HR.getBeatsPerMinute (HR.reset s) = 0 :=
  ⟨rfl, rfl, rfl, rfl, rfl, rfl, rfl⟩

/-- Claim C10: if any held alert has the requested type and a
timestamp within the last 30 s — acknowledged or not — `addAlert`
returns with the whole state unchanged and no buzzer tone. -/
theorem c10_duplicate_suppression (s : AM.State) (ty msg now : Nat) (a : AM.Alert)
    (ha : a ∈ s.alerts) (hty : a.type = ty) (ht : usub32 now a.timestamp < 30000) :
    AM.addAlert s ty msg now = (s, none) := by
  unfold AM.addAlert
  rw [if_pos ⟨a, ha, hty, ht⟩]

/-- Claim C10 witness: a recent alert of type 3 that is already
acknowledged still suppresses a new type-3 alert 19 s later. -/
theorem c10_witness :
    AM.addAlert AM.stateC10 3 2 20000 = (AM.stateC10, none) :=
  c10_duplicate_suppression AM.stateC10 3 2 20000 AM.alertC10
    (by decide) (by decide) (by decide)

end Cardiac
